import Mathlib

/-!
Shallow embedding of the air-quality exporter (`air_quality_exporter.py`)
for verification of its specification.

Machine floats are modelled as `ℚ`; the float `NaN` used by the source as a
"missing" marker is modelled as `Option.none`.  Values fetched back from the
metrics store arrive as strings, as in the source.
-/

set_option autoImplicit false

namespace AirQuality

/-- A row of a Prometheus range-vector result: a Unix timestamp (seconds)
paired with the sample's value rendered as a string, as in `i["values"]`
inside `get_mean`. -/
structure Sample where
  t : ℚ
  v : String
deriving DecidableEq, Repr

/-- Decimal value of a digit string, as Python's `int` computes it. -/
def digitsVal (cs : List Char) : ℕ :=
  cs.foldl (fun n c => 10 * n + (c.toNat - 48)) 0

/-- Python's `str.isdigit`: non-empty and every character a digit. -/
def isDigits (cs : List Char) : Bool :=
  !cs.isEmpty && cs.all Char.isDigit

/-- Embedding of the per-value parse in `get_mean` (line 272 of the source):
`int(x) if x.isdigit() else np.nan`.  A non-empty all-digit string parses to
its decimal value; any other string (a decimal like `"12.5"`, a negative
like `"-5"`) becomes NaN, i.e. `none`. -/
def parseValue (s : String) : Option ℚ :=
  if isDigits s.data then some (digitsVal s.data) else none

/-- The values of `samples` that fall in the trailing window of `hr` hours
anchored at the row `last` and that parse as numbers.  This is the set of
observations pandas' `rolling(f"{hr}h", min_periods=1).mean()` averages at
the final index (offset windows are left-open, right-closed: `(t-hr, t]`),
with NaN entries skipped. -/
def windowVals (hr : ℚ) (last : Sample) (samples : List Sample) : List ℚ :=
  (samples.filter
      (fun s => decide (last.t - hr * 3600 < s.t) && decide (s.t ≤ last.t))).filterMap
    (fun s => parseValue s.v)

/-- Embedding of `get_mean` for one station's series (lines 267–276):
parse each value (`int(x) if x.isdigit() else nan`), index by timestamp, and
take `rolling(f"{hr}h", min_periods=1).mean().iloc[-1]` — the mean of the
parsed (non-NaN) values within the trailing `hr`-hour window ending at the
series' last row, or NaN (`none`) when no value in the window parsed. -/
def getMean (hr : ℚ) (samples : List Sample) : Option ℚ :=
  match samples.getLast? with
  | none => none
  | some last =>
    let vals := windowVals hr last samples
    if vals.length = 0 then none else some (vals.sum / vals.length)

/-- The range selector hard-coded into every Prometheus query issued by
`get_aqi_data` (line 282): `air_quality_...%5B8h%5D`, i.e. `[8h]`, in
seconds.  The same 8-hour range is used for every pollutant, whatever
rolling horizon `hr` is then applied. -/
def promQueryRangeSec : ℚ := 8 * 3600

/-- The samples a Prometheus range query `[8h]` evaluated at `now` returns
out of the full history: those with timestamp in `(now - 8h, now]`. -/
def promRange (now : ℚ) (hist : List Sample) : List Sample :=
  hist.filter (fun s => decide (now - promQueryRangeSec < s.t) && decide (s.t ≤ now))

/-- The trailing mean `get_aqi_data` actually obtains for one station and one
pollutant: `get_mean` with horizon `hr` applied to the samples returned by
the fixed `[8h]` range query. -/
def trailingMeanPipeline (hr now : ℚ) (hist : List Sample) : Option ℚ :=
  getMean hr (promRange now hist)

/-- Linear interpolation on one segment, as `np.interp` performs between two
consecutive table points: `y0 + (a - x0) * (y1 - y0) / (x1 - x0)`. -/
def segEval (x0 x1 y0 y1 a : ℚ) : ℚ :=
  y0 + (a - x0) * (y1 - y0) / (x1 - x0)

/-- Embedding of `np.interp a xp yp` (the `interpolate` helper, lines
263–264) on a point list with strictly increasing abscissae: clamp below the
first point, clamp above the last, and otherwise interpolate linearly
between the two neighbouring points. -/
def np_interp (a : ℚ) : List (ℚ × ℚ) → ℚ
  | [] => 0
  | [(_, y0)] => y0
  | (x0, y0) :: (x1, y1) :: rest =>
    if a ≤ x0 then y0
    else if a ≤ x1 then segEval x0 x1 y0 y1 a
    else np_interp a ((x1, y1) :: rest)

/-- `AQI_min` for one pollutant (line 314): the first concentration
breakpoint of its interpolation table, `arr[0]`. -/
def AQIminOf (pts : List (ℚ × ℚ)) : ℚ :=
  ((pts.head?).map Prod.fst).getD 0

/-- `AQI_max` for one pollutant (line 314): the last concentration
breakpoint of its interpolation table, `arr[-1]`. -/
def AQImaxOf (pts : List (ℚ × ℚ)) : ℚ :=
  ((pts.getLast?).map Prod.fst).getD 0

/-- The masking step of line 292,
`df[(df < AQI_min) | (df > AQI_max) | (df < 0)] = np.nan`: a trailing mean
strictly below the pollutant's first breakpoint, strictly above its last
breakpoint, or negative, is replaced by NaN before interpolation. -/
def maskConcentration (pts : List (ℚ × ℚ)) (c : Option ℚ) : Option ℚ :=
  c.bind (fun a =>
    if a < AQIminOf pts ∨ AQImaxOf pts < a ∨ a < 0 then none else some a)

/-- A pollutant's sub-index as `get_aqi_data` computes it (lines 292–293):
mask the out-of-range trailing mean to NaN, then apply the pollutant's
`np.interp` function; `np.interp` of NaN is NaN, so `none` propagates. -/
def maskedSubIndex (pts : List (ℚ × ℚ)) (c : Option ℚ) : Option ℚ :=
  (maskConcentration pts c).map (fun a => np_interp a pts)

/-- One step of `np.nanmax`: combine the running maximum with the next
entry, a NaN (`none`) entry leaving the accumulator untouched. -/
def nanmaxStep (acc x : Option ℚ) : Option ℚ :=
  match acc, x with
  | none, x => x
  | some a, none => some a
  | some a, some b => some (max a b)

/-- Embedding of `np.nanmax` over the per-pollutant sub-indices of one
station (line 293): the maximum of the non-NaN entries, NaN (`none`) when
every entry is NaN. -/
def nanmaxList (xs : List (Option ℚ)) : Option ℚ :=
  xs.foldl nanmaxStep none

/-- Embedding of `np.searchsorted(y, a)` (side `left`) on a sorted list
(line 295): the first index whose element is `≥ a`. -/
def searchsorted (a : ℚ) : List ℚ → ℕ
  | [] => 0
  | x :: xs => if x < a then searchsorted a xs + 1 else 0

/-- Modelled from the spec: the flattened AQI-bucket boundary list `y`
(line 313) parsed out of the row labels of `AQI.csv`, which is not part of
the sources.  The spec gives the first four buckets
`(0,50),(51,100),(101,150),(151,…)`; the source's `min(…, 6)` shows there
are seven rows, continued here with the standard AQI rows up to 500. -/
def yB : List ℚ := [0, 50, 51, 100, 101, 150, 151, 200, 201, 300, 301, 400, 401, 500]

/-- Modelled from the spec: the seven risk-bucket labels (the row index of
`AQI.csv`, absent from the sources); the spec names the first four, the rest
are placeholders whose identity no claim depends on. -/
def riskLabels : List String :=
  ["Good", "Moderate", "Unhealthy-Sensitive", "Unhealthy",
   "VeryUnhealthy", "Hazardous", "BeyondHazardous"]

/-- The bucket index `get_aqi_data` assigns to a non-NaN AQI (line 295):
`np.minimum(np.searchsorted(y, aqi) // 2, 6)`. -/
def riskIndex (a : ℚ) : ℕ :=
  min (searchsorted a yB / 2) 6

/-- The risk label of lines 295–296: the bucket label at `riskIndex` for a
non-NaN AQI, and NaN (`none`) when the AQI is NaN (line 296 overwrites the
row with NaN in that case). -/
def risk (aqi : Option ℚ) : Option String :=
  aqi.map (fun a => riskLabels.getD (riskIndex a) "")

/-- The abnormal flag of line 297, `df["AQI"] >= threshold`: `False` for a
NaN AQI (any comparison with NaN is false), `aqi ≥ threshold` otherwise.
The default threshold in `get_aqi_data` is 151. -/
def abnormal (aqi : Option ℚ) (threshold : ℚ) : Bool :=
  match aqi with
  | none => false
  | some a => decide (threshold ≤ a)

/-- The load-time unit scaling of line 312,
`intervals.iloc[:2, 0] *= 1000`: every concentration breakpoint of the two
ozone rows is multiplied by `k = 1000` once, when the table is built; the
index ordinates are untouched. -/
def scalePoints (k : ℚ) (pts : List (ℚ × ℚ)) : List (ℚ × ℚ) :=
  pts.map (fun p => (k * p.1, p.2))

/-- Modelled from the spec: the CO interpolation table of `AQI.csv` (absent
from the sources), from the spec's end-to-end scenario — breakpoints
`[(0, 4.4, 0, 50), (4.5, 9.4, 51, 100)]`, flattened to `np.interp` points
as `intervals` does (lines 306–312). -/
def coPts : List (ℚ × ℚ) := [(0, 0), (4.4, 50), (4.5, 51), (9.4, 100)]

/-- The value `collect_data` publishes for one raw sample (lines 324–328):
the sentinel codes `-1` and `-2` are replaced by NaN (`none`); every other
value — negative or not — is published as itself. -/
def publishValue (v : ℚ) : Option ℚ :=
  if v = -1 ∨ v = -2 then none else some v

/-- The `Pollutants` record of the source (lines 62–83): one optional
reading per pollutant type, all initially `None`. -/
structure Pollutants where
  temperature : Option ℚ := none
  humidity : Option ℚ := none
  co2 : Option ℚ := none
  co : Option ℚ := none
  pm25 : Option ℚ := none
  pm10 : Option ℚ := none
  o3 : Option ℚ := none
  voc : Option ℚ := none
  hc : Option ℚ := none
deriving DecidableEq, Repr

/-- `Pollutants.get_all_pollutants_type` (lines 85–96): the nine recognised
pollutant type names. -/
def allPollutantsType : List String :=
  ["temperature", "humidity", "co2", "co", "pm25", "pm10", "o3", "voc", "hc"]

/-- `Pollutants.update_pollutant_data` (lines 98–118): set the field named
by `ty` to the new value; an unknown name only logs an error and changes
nothing. -/
def updatePollutantData (p : Pollutants) (ty : String) (v : ℚ) : Pollutants :=
  if ty = "temperature" then { p with temperature := some v }
  else if ty = "humidity" then { p with humidity := some v }
  else if ty = "co2" then { p with co2 := some v }
  else if ty = "co" then { p with co := some v }
  else if ty = "pm25" then { p with pm25 := some v }
  else if ty = "pm10" then { p with pm10 := some v }
  else if ty = "o3" then { p with o3 := some v }
  else if ty = "voc" then { p with voc := some v }
  else if ty = "hc" then { p with hc := some v }
  else p

/-- A risk bucket as the claim under scrutiny words it: a lower and an
(optional, `none` = unbounded) upper AQI boundary plus a label. -/
structure RiskBucket where
  lo : ℚ
  hi : Option ℚ
  label : String
deriving DecidableEq, Repr

/-- The four risk buckets named by the spec:
`[(0,50,Good), (51,100,Moderate), (101,150,Unhealthy-Sensitive),
(151,∞,Unhealthy)]`. -/
def specBuckets : List RiskBucket :=
  [⟨0, some 50, "Good"⟩, ⟨51, some 100, "Moderate"⟩,
   ⟨101, some 150, "Unhealthy-Sensitive"⟩, ⟨151, none, "Unhealthy"⟩]

/-- Scan the buckets in order and return the first whose half-open range
`[index_low, index_high)` contains `a` — the claim's reading of the risk
rule (`none` upper bound = open-ended). -/
def findBucket (a : ℚ) : List RiskBucket → Option RiskBucket
  | [] => none
  | b :: bs =>
    match b.hi with
    | none => if b.lo ≤ a then some b else findBucket a bs
    | some h => if b.lo ≤ a ∧ a < h then some b else findBucket a bs

/-- The risk rule exactly as the claim states it: scan the buckets in
order for one whose half-open range contains the AQI; an AQI above the
highest bucket boundary (151, the lower edge of the open-ended bucket)
clamps to that final bucket. -/
def claimRisk (a : ℚ) : Option String :=
  match findBucket a specBuckets with
  | some b => some b.label
  | none => if 151 ≤ a then some "Unhealthy" else none

/-- The upper boundaries of the seven risk buckets, in order. -/
def riskHighs : List ℚ := [50, 100, 150, 200, 300, 400, 500]

/-- Index of the first boundary that is `≥ a`, clamping to the last bucket
when `a` lies above every boundary — the amended reading of the risk rule:
buckets behave as ranges closed at the top,
`(previous index_high, index_high]`. -/
def firstLeIdx (a : ℚ) : List ℚ → ℕ
  | [] => 0
  | [_] => 0
  | h :: hs => if a ≤ h then 0 else firstLeIdx a hs + 1

/-- The amended bucket index: first bucket whose upper boundary is `≥ a`,
the last bucket when `a` exceeds every boundary. -/
def amendedRiskIndex (a : ℚ) : ℕ :=
  firstLeIdx a riskHighs

/-! ### Helper lemmas -/

lemma nanmax_foldl_some (xs : List (Option ℚ)) :
    ∀ a : ℚ, xs.foldl nanmaxStep (some a) = some (List.foldl max a (xs.filterMap id)) := by
  induction xs with
  | nil => intro a; simp
  | cons x xs ih =>
    intro a
    cases x with
    | none => simpa [nanmaxStep] using ih a
    | some b => simpa [nanmaxStep] using ih (max a b)

lemma nanmaxList_eq_max (xs : List (Option ℚ)) :
    nanmaxList xs = (xs.filterMap id).max? := by
  induction xs with
  | nil => rfl
  | cons x xs ih =>
    cases x with
    | none => simpa [nanmaxList, nanmaxStep] using ih
    | some b =>
      simp [nanmaxList, nanmaxStep, nanmax_foldl_some, List.max?]


lemma segEval_left (x0 x1 y0 y1 : ℚ) : segEval x0 x1 y0 y1 x0 = y0 := by
  unfold segEval
  rw [sub_self, zero_mul, zero_div, add_zero]

lemma segEval_right (x0 x1 y0 y1 : ℚ) (h : x0 ≠ x1) : segEval x0 x1 y0 y1 x1 = y1 := by
  unfold segEval
  have hne : x1 - x0 ≠ 0 := sub_ne_zero.2 (Ne.symm h)
  field_simp

lemma np_interp_seg (a x0 x1 y0 y1 : ℚ) (post : List (ℚ × ℚ)) :
    ∀ pre : List (ℚ × ℚ), (∀ p ∈ pre, p.1 < x0) → x0 < x1 → x0 ≤ a → a ≤ x1 →
      np_interp a (pre ++ (x0, y0) :: (x1, y1) :: post) = segEval x0 x1 y0 y1 a := by
  intro pre
  induction pre with
  | nil =>
    intro _ hx hl hr
    simp only [List.nil_append, np_interp]
    rcases le_or_lt a x0 with h | h
    · rw [if_pos h]
      have ha : a = x0 := le_antisymm h hl
      rw [ha, segEval_left]
    · rw [if_neg (not_le.2 h), if_pos hr]
  | cons p pre ih =>
    intro hpre hx hl hr
    obtain ⟨px, py⟩ := p
    have hp : px < x0 := hpre (px, py) (List.mem_cons_self _ _)
    have hpa : ¬ a ≤ px := not_le.2 (lt_of_lt_of_le hp hl)
    cases pre with
    | nil =>
      simp only [List.nil_append, List.cons_append, np_interp]
      rw [if_neg hpa]
      rcases le_or_lt a x0 with h | h
      · rw [if_pos h]
        have ha : a = x0 := le_antisymm h hl
        rw [ha, segEval_right px x0 py y0 (ne_of_lt hp), segEval_left]
      · rw [if_neg (not_le.2 h)]
        have := ih (by intro q hq; cases hq) hx hl hr
        simpa using this
    | cons q pre₂ =>
      obtain ⟨qx, qy⟩ := q
      have hq : qx < x0 := hpre (qx, qy) (List.mem_cons_of_mem _ (List.mem_cons_self _ _))
      have hqa : ¬ a ≤ qx := not_le.2 (lt_of_lt_of_le hq hl)
      simp only [List.cons_append, np_interp]
      rw [if_neg hpa, if_neg hqa]
      have := ih (by
        intro r hr₂
        exact hpre r (List.mem_cons_of_mem _ hr₂)) hx hl hr
      simpa using this

lemma segEval_scale (k x0 x1 y0 y1 a : ℚ) (hk : k ≠ 0) :
    segEval (k * x0) (k * x1) y0 y1 (k * a) = segEval x0 x1 y0 y1 a := by
  unfold segEval
  rw [← mul_sub, ← mul_sub, mul_assoc, mul_div_mul_left _ _ hk]

lemma np_interp_scale (k : ℚ) (hk : 0 < k) :
    ∀ (pts : List (ℚ × ℚ)) (a : ℚ),
      np_interp (k * a) (scalePoints k pts) = np_interp a pts := by
  intro pts
  induction pts with
  | nil => intro a; rfl
  | cons p tl ih =>
    intro a
    obtain ⟨px, py⟩ := p
    cases tl with
    | nil => rfl
    | cons q tl₂ =>
      obtain ⟨qx, qy⟩ := q
      have htl := ih a
      simp only [scalePoints, List.map_cons] at htl ⊢
      simp only [np_interp]
      by_cases h1 : a ≤ px
      · rw [if_pos ((mul_le_mul_left hk).2 h1), if_pos h1]
      · rw [if_neg (fun hc => h1 ((mul_le_mul_left hk).1 hc)), if_neg h1]
        by_cases h2 : a ≤ qx
        · rw [if_pos ((mul_le_mul_left hk).2 h2), if_pos h2,
            segEval_scale k px qx py qy a (ne_of_gt hk)]
        · rw [if_neg (fun hc => h2 ((mul_le_mul_left hk).1 hc)), if_neg h2]
          exact htl

lemma ss_nil (a : ℚ) : searchsorted a [] = 0 := rfl

lemma ss_lt {a x : ℚ} (xs : List ℚ) (h : x < a) :
    searchsorted a (x :: xs) = searchsorted a xs + 1 := by
  simp only [searchsorted]
  rw [if_pos h]

lemma ss_ge {a x : ℚ} (xs : List ℚ) (h : ¬ x < a) :
    searchsorted a (x :: xs) = 0 := by
  simp only [searchsorted]
  rw [if_neg h]

lemma fl_le {a h : ℚ} (y : ℚ) (ys : List ℚ) (hle : a ≤ h) :
    firstLeIdx a (h :: y :: ys) = 0 := by
  simp only [firstLeIdx]
  rw [if_pos hle]

lemma fl_gt {a h : ℚ} (y : ℚ) (ys : List ℚ) (hgt : ¬ a ≤ h) :
    firstLeIdx a (h :: y :: ys) = firstLeIdx a (y :: ys) + 1 := by
  simp only [firstLeIdx]
  rw [if_neg hgt]

lemma fl_single (a h : ℚ) : firstLeIdx a [h] = 0 := rfl

lemma riskIndex_eq_amended (a : ℚ) : riskIndex a = amendedRiskIndex a := by
  unfold riskIndex amendedRiskIndex
  rw [yB, riskHighs]
  rcases le_or_lt a 0 with h0 | h0
  · rw [ss_ge _ (not_lt.2 h0), fl_le _ _ (by linarith)]
    decide
  rcases le_or_lt a 50 with h1 | h1
  · rw [ss_lt _ h0, ss_ge _ (not_lt.2 h1), fl_le _ _ h1]
    decide
  rcases le_or_lt a 51 with h2 | h2
  · rw [ss_lt _ h0, ss_lt _ h1, ss_ge _ (not_lt.2 h2),
      fl_gt _ _ (not_le.2 h1), fl_le _ _ (by linarith)]
    decide
  rcases le_or_lt a 100 with h3 | h3
  · rw [ss_lt _ h0, ss_lt _ h1, ss_lt _ h2, ss_ge _ (not_lt.2 h3),
      fl_gt _ _ (not_le.2 h1), fl_le _ _ h3]
    decide
  rcases le_or_lt a 101 with h4 | h4
  · rw [ss_lt _ h0, ss_lt _ h1, ss_lt _ h2, ss_lt _ h3, ss_ge _ (not_lt.2 h4),
      fl_gt _ _ (not_le.2 h1), fl_gt _ _ (not_le.2 h3), fl_le _ _ (by linarith)]
    decide
  rcases le_or_lt a 150 with h5 | h5
  · rw [ss_lt _ h0, ss_lt _ h1, ss_lt _ h2, ss_lt _ h3, ss_lt _ h4,
      ss_ge _ (not_lt.2 h5),
      fl_gt _ _ (not_le.2 h1), fl_gt _ _ (not_le.2 h3), fl_le _ _ h5]
    decide
  rcases le_or_lt a 151 with h6 | h6
  · rw [ss_lt _ h0, ss_lt _ h1, ss_lt _ h2, ss_lt _ h3, ss_lt _ h4, ss_lt _ h5,
      ss_ge _ (not_lt.2 h6),
      fl_gt _ _ (not_le.2 h1), fl_gt _ _ (not_le.2 h3), fl_gt _ _ (not_le.2 h5),
      fl_le _ _ (by linarith)]
    decide
  rcases le_or_lt a 200 with h7 | h7
  · rw [ss_lt _ h0, ss_lt _ h1, ss_lt _ h2, ss_lt _ h3, ss_lt _ h4, ss_lt _ h5,
      ss_lt _ h6, ss_ge _ (not_lt.2 h7),
      fl_gt _ _ (not_le.2 h1), fl_gt _ _ (not_le.2 h3), fl_gt _ _ (not_le.2 h5),
      fl_le _ _ h7]
    decide
  rcases le_or_lt a 201 with h8 | h8
  · rw [ss_lt _ h0, ss_lt _ h1, ss_lt _ h2, ss_lt _ h3, ss_lt _ h4, ss_lt _ h5,
      ss_lt _ h6, ss_lt _ h7, ss_ge _ (not_lt.2 h8),
      fl_gt _ _ (not_le.2 h1), fl_gt _ _ (not_le.2 h3), fl_gt _ _ (not_le.2 h5),
      fl_gt _ _ (not_le.2 h7), fl_le _ _ (by linarith)]
    decide
  rcases le_or_lt a 300 with h9 | h9
  · rw [ss_lt _ h0, ss_lt _ h1, ss_lt _ h2, ss_lt _ h3, ss_lt _ h4, ss_lt _ h5,
      ss_lt _ h6, ss_lt _ h7, ss_lt _ h8, ss_ge _ (not_lt.2 h9),
      fl_gt _ _ (not_le.2 h1), fl_gt _ _ (not_le.2 h3), fl_gt _ _ (not_le.2 h5),
      fl_gt _ _ (not_le.2 h7), fl_le _ _ h9]
    decide
  rcases le_or_lt a 301 with h10 | h10
  · rw [ss_lt _ h0, ss_lt _ h1, ss_lt _ h2, ss_lt _ h3, ss_lt _ h4, ss_lt _ h5,
      ss_lt _ h6, ss_lt _ h7, ss_lt _ h8, ss_lt _ h9, ss_ge _ (not_lt.2 h10),
      fl_gt _ _ (not_le.2 h1), fl_gt _ _ (not_le.2 h3), fl_gt _ _ (not_le.2 h5),
      fl_gt _ _ (not_le.2 h7), fl_gt _ _ (not_le.2 h9), fl_le _ _ (by linarith)]
    decide
  rcases le_or_lt a 400 with h11 | h11
  · rw [ss_lt _ h0, ss_lt _ h1, ss_lt _ h2, ss_lt _ h3, ss_lt _ h4, ss_lt _ h5,
      ss_lt _ h6, ss_lt _ h7, ss_lt _ h8, ss_lt _ h9, ss_lt _ h10,
      ss_ge _ (not_lt.2 h11),
      fl_gt _ _ (not_le.2 h1), fl_gt _ _ (not_le.2 h3), fl_gt _ _ (not_le.2 h5),
      fl_gt _ _ (not_le.2 h7), fl_gt _ _ (not_le.2 h9), fl_le _ _ h11]
    decide
  rcases le_or_lt a 401 with h12 | h12
  · rw [ss_lt _ h0, ss_lt _ h1, ss_lt _ h2, ss_lt _ h3, ss_lt _ h4, ss_lt _ h5,
      ss_lt _ h6, ss_lt _ h7, ss_lt _ h8, ss_lt _ h9, ss_lt _ h10, ss_lt _ h11,
      ss_ge _ (not_lt.2 h12),
      fl_gt _ _ (not_le.2 h1), fl_gt _ _ (not_le.2 h3), fl_gt _ _ (not_le.2 h5),
      fl_gt _ _ (not_le.2 h7), fl_gt _ _ (not_le.2 h9), fl_gt _ _ (not_le.2 h11),
      fl_single]
    decide
  rcases le_or_lt a 500 with h13 | h13
  · rw [ss_lt _ h0, ss_lt _ h1, ss_lt _ h2, ss_lt _ h3, ss_lt _ h4, ss_lt _ h5,
      ss_lt _ h6, ss_lt _ h7, ss_lt _ h8, ss_lt _ h9, ss_lt _ h10, ss_lt _ h11,
      ss_lt _ h12, ss_ge _ (not_lt.2 h13),
      fl_gt _ _ (not_le.2 h1), fl_gt _ _ (not_le.2 h3), fl_gt _ _ (not_le.2 h5),
      fl_gt _ _ (not_le.2 h7), fl_gt _ _ (not_le.2 h9), fl_gt _ _ (not_le.2 h11),
      fl_single]
    decide
  · rw [ss_lt _ h0, ss_lt _ h1, ss_lt _ h2, ss_lt _ h3, ss_lt _ h4, ss_lt _ h5,
      ss_lt _ h6, ss_lt _ h7, ss_lt _ h8, ss_lt _ h9, ss_lt _ h10, ss_lt _ h11,
      ss_lt _ h12, ss_lt _ h13, ss_nil,
      fl_gt _ _ (not_le.2 h1), fl_gt _ _ (not_le.2 h3), fl_gt _ _ (not_le.2 h5),
      fl_gt _ _ (not_le.2 h7), fl_gt _ _ (not_le.2 h9), fl_gt _ _ (not_le.2 h11),
      fl_single]
    decide

lemma riskIndex_150 : riskIndex 150 = 2 := by
  unfold riskIndex
  rw [yB, ss_lt _ (by norm_num), ss_lt _ (by norm_num), ss_lt _ (by norm_num),
    ss_lt _ (by norm_num), ss_lt _ (by norm_num), ss_ge _ (by norm_num)]
  decide

lemma riskIndex_151 : riskIndex 151 = 3 := by
  unfold riskIndex
  rw [yB, ss_lt _ (by norm_num), ss_lt _ (by norm_num), ss_lt _ (by norm_num),
    ss_lt _ (by norm_num), ss_lt _ (by norm_num), ss_lt _ (by norm_num),
    ss_ge _ (by norm_num)]
  decide

lemma findBucket_150 : findBucket 150 specBuckets = none := by
  rw [specBuckets]
  simp only [findBucket]
  rw [if_neg (by norm_num), if_neg (by norm_num), if_neg (by norm_num),
    if_neg (by norm_num)]

/-! ### Claim theorems -/

/-- C2: the composite AQI of `get_aqi_data` (`np.nanmax` over the five
sub-indices, line 293) is the maximum of the non-missing sub-indices; it is
missing exactly when every sub-index is missing; and the sub-indices
`{O3_8 = 40, O3_1 = missing, PM25 = 85, PM10 = missing, CO = missing}`
combine to AQI 85. -/
theorem aqi_combination_max :
    (∀ subs : List (Option ℚ), nanmaxList subs = (subs.filterMap id).max?) ∧
    (∀ subs : List (Option ℚ), (∀ x ∈ subs, x = none) → nanmaxList subs = none) ∧
    nanmaxList [some 40, none, some 85, none, none] = some 85 := by
  refine ⟨nanmaxList_eq_max, ?_, ?_⟩
  · intro subs h
    rw [nanmaxList_eq_max,
      List.filterMap_eq_nil_iff.2 (fun x hx => by simp [h x hx]), List.max?_nil]
  · have h : max (40 : ℚ) 85 = 85 := by
      rw [max_eq_right]; norm_num
    simp [nanmaxList, nanmaxStep, h]

/-- Witness for C2: the all-missing clause at a concrete all-`none` input. -/
theorem aqi_combination_max_witness :
    nanmaxList [none, none, none, none, none] = none :=
  aqi_combination_max.2.1 [none, none, none, none, none] (by simp)

/-- C4: the abnormal flag (line 297, `df["AQI"] >= threshold`) is true
exactly when the AQI is non-missing and at least the threshold; a missing
AQI gives `false`; at the default threshold 151, AQI 151 is abnormal and
AQI 150 is not. -/
theorem abnormal_flag_iff :
    (∀ (thr : ℚ) (aqi : Option ℚ),
        (abnormal aqi thr = true ↔ ∃ a, aqi = some a ∧ thr ≤ a)) ∧
    (∀ thr : ℚ, abnormal none thr = false) ∧
    abnormal (some 151) 151 = true ∧ abnormal (some 150) 151 = false := by
  refine ⟨?_, fun thr => rfl, ?_, ?_⟩
  · intro thr aqi
    cases aqi with
    | none => simp [abnormal]
    | some a => simp [abnormal]
  · simp [abnormal]
  · norm_num [abnormal]

/-- C9 counterexample: the raw value `-5` — negative but not one of the
sentinel codes `-1`/`-2` — is published by `collect_data` as its numeric
value, not as NaN, contrary to the claim that any negative value is
published as NaN. -/
theorem negative_value_published_counterexample :
    publishValue (-5) = some (-5) ∧ publishValue (-5) ≠ none := by
  have h : publishValue (-5) = some (-5) := by norm_num [publishValue]
  exact ⟨h, by rw [h]; exact fun hc => Option.noConfusion hc⟩

/-- C9 amended: only the sentinel codes `-1` and `-2` are replaced by NaN
at publication (lines 324–328); any other value, negative included, is
published numerically.  Negative or otherwise non-digit values are still
excluded downstream: the `get_mean` parse maps any non-digit string to NaN
(line 272), and a negative trailing mean is masked to NaN before
interpolation (line 292).  All paths are total — no exception is raised. -/
theorem sentinel_handling_amended :
    publishValue (-1) = none ∧ publishValue (-2) = none ∧
    (∀ v : ℚ, v ≠ -1 → v ≠ -2 → publishValue v = some v) ∧
    (∀ s : String, isDigits s.data = false → parseValue s = none) ∧
    parseValue "-5" = none ∧
    (∀ (pts : List (ℚ × ℚ)) (v : ℚ), v < 0 → maskedSubIndex pts (some v) = none) := by
  refine ⟨by norm_num [publishValue], by norm_num [publishValue], ?_, ?_, ?_, ?_⟩
  · intro v h1 h2
    simp [publishValue, h1, h2]
  · intro s h
    simp [parseValue, h]
  · have h0 : isDigits ("-5").data = false := by decide
    simp [parseValue, h0]
  · intro pts v hv
    simp [maskedSubIndex, maskConcentration, Or.inr (Or.inr hv)]

/-- Witness for C9 amended: the general clauses at concrete inputs. -/
theorem sentinel_handling_amended_witness :
    publishValue 7 = some 7 ∧ maskedSubIndex coPts (some (-5)) = none :=
  ⟨sentinel_handling_amended.2.2.1 7 (by norm_num) (by norm_num),
   sentinel_handling_amended.2.2.2.2.2 coPts (-5) (by norm_num)⟩

/-- C10: `Pollutants.update_pollutant_data` with a known pollutant name
sets exactly the field of that name (leaving all others as they were,
captured by the record-update equalities), and with an unknown name leaves
the object unchanged and raises no exception (lines 98–118). -/
theorem update_pollutant_frame :
    (∀ (p : Pollutants) (v : ℚ),
        updatePollutantData p "temperature" v = { p with temperature := some v } ∧
        updatePollutantData p "humidity" v = { p with humidity := some v } ∧
        updatePollutantData p "co2" v = { p with co2 := some v } ∧
        updatePollutantData p "co" v = { p with co := some v } ∧
        updatePollutantData p "pm25" v = { p with pm25 := some v } ∧
        updatePollutantData p "pm10" v = { p with pm10 := some v } ∧
        updatePollutantData p "o3" v = { p with o3 := some v } ∧
        updatePollutantData p "voc" v = { p with voc := some v } ∧
        updatePollutantData p "hc" v = { p with hc := some v }) ∧
    (∀ (p : Pollutants) (ty : String) (v : ℚ), ty ∉ allPollutantsType →
        updatePollutantData p ty v = p) := by
  constructor
  · intro p v
    refine ⟨rfl, rfl, rfl, rfl, rfl, rfl, rfl, rfl, rfl⟩
  · intro p ty v h
    simp only [allPollutantsType, List.mem_cons, List.not_mem_nil, or_false,
      not_or] at h
    obtain ⟨h1, h2, h3, h4, h5, h6, h7, h8, h9⟩ := h
    simp [updatePollutantData, h1, h2, h3, h4, h5, h6, h7, h8, h9]

/-- Witness for C10: an unknown pollutant name at a concrete record. -/
theorem update_pollutant_frame_witness :
    updatePollutantData {} "radon" 5 = {} :=
  update_pollutant_frame.2 {} "radon" 5 (by decide)

/-- C1 counterexample: a series holding exactly one sample whose value is
the non-digit string `"12.5"` — well inside the queried window — yields a
missing trailing mean, not the value `12.5`: the parse
`int(x) if x.isdigit() else nan` (line 272) drops every non-digit value. -/
theorem trailing_mean_nonDigit_counterexample :
    getMean 24 [⟨0, "12.5"⟩] = none ∧ getMean 24 [⟨0, "12.5"⟩] ≠ some (12.5 : ℚ) := by
  have h0 : isDigits ("12.5").data = false := by decide
  have h : parseValue "12.5" = none := by simp [parseValue, h0]
  have hm : getMean 24 [⟨0, "12.5"⟩] = none := by
    simp [getMean, windowVals, h]
  exact ⟨hm, by rw [hm]; exact fun hc => Option.noConfusion hc⟩

/-- C1 amended: when the single sample in the window carries a plain digit
string, `get_mean` returns its (integer) value unchanged; the claim's
extension to non-integer values fails, since the parse of line 272 maps any
non-digit string to NaN. -/
theorem trailing_mean_single_digit_sample (t hr : ℚ) (s : String) (q : ℚ)
    (hhr : 0 < hr) (hp : parseValue s = some q) :
    getMean hr [⟨t, s⟩] = some q := by
  have hw : t - hr * 3600 < t := by nlinarith
  simp [getMean, windowVals, hp, hw]

/-- Witness for C1 amended: the digit-string sample `"12"` at time 0 with a
24-hour horizon. -/
theorem trailing_mean_single_digit_sample_witness :
    getMean 24 [⟨0, "12"⟩] = some 12 :=
  trailing_mean_single_digit_sample 0 24 "12" 12 (by norm_num)
    (by
      have h0 : isDigits ("12").data = true := by decide
      have h1 : digitsVal ("12").data = 12 := by decide
      simp [parseValue, h0, h1])

/-- C7 (code bug): `get_aqi_data` hands `get_mean` a 24-hour horizon for
PM2.5/PM10 (line 286–287) but fetches the series with a fixed `[8h]` range
selector (line 282), so a valid sample 10 hours old — inside the claimed
24-hour horizon — never reaches the mean.  Here both samples lie within 24
hours of `now = 100000` (third conjunct: their 24-hour mean over the full
history is 20), yet the pipeline returns 30, the mean of the one sample the
8-hour query retains. -/
theorem pm25_window_truncated_by_query :
    trailingMeanPipeline 24 100000 [⟨64000, "10"⟩, ⟨99900, "30"⟩] = some 30 ∧
    (100000 : ℚ) - 24 * 3600 < 64000 ∧
    getMean 24 [⟨64000, "10"⟩, ⟨99900, "30"⟩] = some 20 := by
  have d10 : isDigits ("10").data = true := by decide
  have v10 : digitsVal ("10").data = 10 := by decide
  have d30 : isDigits ("30").data = true := by decide
  have v30 : digitsVal ("30").data = 30 := by decide
  have h10 : parseValue "10" = some 10 := by simp [parseValue, d10, v10]
  have h30 : parseValue "30" = some 30 := by simp [parseValue, d30, v30]
  refine ⟨?_, by norm_num, ?_⟩
  · have hr : promRange 100000 [⟨64000, "10"⟩, ⟨99900, "30"⟩] = [⟨99900, "30"⟩] := by
      simp [promRange, promQueryRangeSec]
      norm_num
    rw [trailingMeanPipeline, hr]
    simp [getMean, windowVals, h30]
  · simp only [getMean, windowVals]
    norm_num [h10, h30, List.filterMap_cons]

/-- C5: within any breakpoint segment `[x0, x1]` of a table whose earlier
breakpoints all lie below the segment, `np.interp` returns exactly
`index_low + (a - concentration_low) * (index_high - index_low) /
(concentration_high - concentration_low)`; on the spec's CO table this
gives the formula on each of the two segments, and a concentration exactly
at a segment boundary returns exactly that boundary's index (the model is
exact rational arithmetic, so "up to floating tolerance" is exact
equality). -/
theorem interpolate_within_segment :
    (∀ (pre : List (ℚ × ℚ)) (x0 x1 y0 y1 : ℚ) (post : List (ℚ × ℚ)) (a : ℚ),
        (∀ p ∈ pre, p.1 < x0) → x0 < x1 → x0 ≤ a → a ≤ x1 →
        np_interp a (pre ++ (x0, y0) :: (x1, y1) :: post)
          = y0 + (a - x0) * (y1 - y0) / (x1 - x0)) ∧
    (∀ a : ℚ, 0 ≤ a → a ≤ 4.4 →
        np_interp a coPts = 0 + (a - 0) * (50 - 0) / (4.4 - 0)) ∧
    (∀ a : ℚ, 4.5 ≤ a → a ≤ 9.4 →
        np_interp a coPts = 51 + (a - 4.5) * (100 - 51) / (9.4 - 4.5)) ∧
    np_interp 4.4 coPts = 50 ∧ np_interp 4.5 coPts = 51 := by
  refine ⟨?_, ?_, ?_, ?_, ?_⟩
  · intro pre x0 x1 y0 y1 post a hpre hx hl hr
    exact np_interp_seg a x0 x1 y0 y1 post pre hpre hx hl hr
  · intro a h0 h1
    have h := np_interp_seg a 0 4.4 0 50 [(4.5, 51), (9.4, 100)] []
      (by intro p hp; cases hp) (by norm_num) h0 h1
    simpa [coPts, segEval] using h
  · intro a h0 h1
    have h := np_interp_seg a 4.5 9.4 51 100 [] [(0, 0), (4.4, 50)]
      (by
        intro p hp
        rcases List.mem_cons.1 hp with h | hp₂
        · rw [h]; norm_num
        rcases List.mem_cons.1 hp₂ with h | hp₃
        · rw [h]; norm_num
        exact absurd hp₃ (List.not_mem_nil p))
      (by norm_num) h0 h1
    simpa [coPts, segEval] using h
  · norm_num [np_interp, coPts, segEval]
  · norm_num [np_interp, coPts, segEval]

/-- Witness for C5: the spec's end-to-end datum — a CO trailing mean of
2.0 ppm interpolates on the first segment to `2 * 50 / 4.4 ≈ 22.7`. -/
theorem interpolate_within_segment_witness :
    np_interp 2 coPts = 0 + (2 - 0) * (50 - 0) / (4.4 - 0) ∧
    0 + ((2 : ℚ) - 0) * (50 - 0) / (4.4 - 0) = 250 / 11 := by
  refine ⟨interpolate_within_segment.2.1 2 (by norm_num) (by norm_num), by norm_num⟩

/-- C8: the ×1000 ozone unit scaling of line 312 multiplies each authored
concentration breakpoint once, at table-load time (`scalePoints`), and
interpolation consumes the already-scaled boundaries without further
scaling: evaluating the loaded table at `1000 * a` equals evaluating the
authored table at `a`, and interpolation is a pure function of the loaded
table, so interpolating the same concentration twice gives the same
sub-index. -/
theorem unit_scaling_at_load :
    (∀ pts : List (ℚ × ℚ),
        scalePoints 1000 pts = pts.map (fun p => (1000 * p.1, p.2))) ∧
    (∀ (pts : List (ℚ × ℚ)) (a : ℚ),
        np_interp (1000 * a) (scalePoints 1000 pts) = np_interp a pts) ∧
    (∀ (pts : List (ℚ × ℚ)) (a : ℚ),
        np_interp a (scalePoints 1000 pts) = np_interp a (scalePoints 1000 pts)) := by
  exact ⟨fun pts => rfl,
    fun pts a => np_interp_scale 1000 (by norm_num) pts a,
    fun pts a => rfl⟩

/-- C6: a trailing mean strictly below the pollutant's first breakpoint or
strictly above its last one is masked to NaN by line 292 and therefore
produces a missing sub-index — no extrapolation and no clamping to an edge
index; a missing mean stays missing; and on the spec's CO table (last
breakpoint 9.4) a mean of 50 ppm yields missing. -/
theorem subindex_out_of_range_missing :
    (∀ (pts : List (ℚ × ℚ)) (c : ℚ),
        c < AQIminOf pts ∨ AQImaxOf pts < c → maskedSubIndex pts (some c) = none) ∧
    (∀ pts : List (ℚ × ℚ), maskedSubIndex pts none = none) ∧
    AQImaxOf coPts = 9.4 ∧
    maskedSubIndex coPts (some 50) = none := by
  have hmask : ∀ (pts : List (ℚ × ℚ)) (c : ℚ),
      c < AQIminOf pts ∨ AQImaxOf pts < c → maskedSubIndex pts (some c) = none := by
    intro pts c hc
    rcases hc with h | h
    · simp [maskedSubIndex, maskConcentration, Or.inl h]
    · simp [maskedSubIndex, maskConcentration, Or.inr (Or.inl h)]
  have hmax : AQImaxOf coPts = 9.4 := by
    norm_num [AQImaxOf, coPts]
  refine ⟨hmask, fun pts => rfl, hmax, ?_⟩
  exact hmask coPts 50 (Or.inr (by rw [hmax]; norm_num))

/-- Witness for C6: the out-of-range clause at the spec's concrete CO
input, a trailing mean of 50 ppm. -/
theorem subindex_out_of_range_missing_witness :
    maskedSubIndex coPts (some 50) = none :=
  subindex_out_of_range_missing.1 coPts 50
    (Or.inr (by norm_num [AQImaxOf, coPts]))

/-- C3 counterexample: at AQI 150 the claim's own rule — scan buckets for a
half-open range `[index_low, index_high)` containing the AQI, clamping only
AQI above the highest boundary — selects no bucket (150 is in none of
`[0,50)`, `[51,100)`, `[101,150)`, `[151,∞)`), while the code (line 295)
assigns the third bucket, "Unhealthy-Sensitive"; so the claim's general
rule does not describe the code. -/
theorem risk_halfopen_counterexample :
    claimRisk 150 = none ∧ risk (some 150) = some "Unhealthy-Sensitive" ∧
    claimRisk 150 ≠ risk (some 150) := by
  have h1 : claimRisk 150 = none := by
    unfold claimRisk
    rw [findBucket_150]
    show (if (151:ℚ) ≤ 150 then some "Unhealthy" else none) = none
    rw [if_neg (by norm_num)]
  have h2 : risk (some 150) = some "Unhealthy-Sensitive" := by
    simp [risk, riskIndex_150, riskLabels]
  refine ⟨h1, h2, ?_⟩
  rw [h1, h2]
  exact fun hc => Option.noConfusion hc

/-- C3 amended: the bucket `searchsorted(y, AQI) // 2` (clamped to the last
bucket) selects is the first bucket whose *upper* boundary is `≥ AQI` —
the buckets act as ranges closed at the top, `(previous index_high,
index_high]`, not half-open `[index_low, index_high)`; a missing AQI still
yields a missing label, AQI 150 yields "Unhealthy-Sensitive" and AQI 151
yields "Unhealthy". -/
theorem risk_classification_amended :
    (∀ a : ℚ, riskIndex a = amendedRiskIndex a) ∧
    risk none = none ∧
    risk (some 150) = some "Unhealthy-Sensitive" ∧
    risk (some 151) = some "Unhealthy" := by
  refine ⟨riskIndex_eq_amended, rfl, ?_, ?_⟩
  · simp [risk, riskIndex_150, riskLabels]
  · simp [risk, riskIndex_151, riskLabels]

end AirQuality
